import Mathlib

/-!
Verification of `libmproxy/proxy/config.py` (mitmproxy proxy configuration
layer): a shallow embedding of `HostMatcher`, `ProxyConfig.__init__`,
`version_to_openssl` and `process_proxy_options`, with theorems settling the
specified properties.

External collaborators (the `netlib`, `OpenSSL`, `platform` and `os.path`
modules, and the `.primitives` proxy-mode classes) are not part of the
embedded source file; where a claim depends on them they are modelled from
the spec, and each such definition says so in its doc comment.
-/

/-- The five exact Python error message strings used by the embedded code. -/
def errTransparentPlatform : String :=
  "Transparent mode not supported on this platform."

def errMutualExclusion : String :=
  "Transparent, SOCKS5, reverse and upstream proxy mode are mutually exclusive."

def errSingleUserFormat : String :=
  "Invalid single-user specification. Please use the format username:password"

/-- Python truthiness of an optional string: `None` and `""` are falsy. -/
def optTruthy : Option String → Bool
  | none => false
  | some s => s ≠ ""

/-- A compiled regular expression as stored by `HostMatcher`: the raw pattern
together with the `re.IGNORECASE` flag it was compiled with.  The matching
semantics of Python's `re` library is external to the repository and is kept
abstract: theorems quantify over a search function `Regex → String → Bool`. -/
structure Regex where
  pattern : String
  ignorecase : Bool
deriving DecidableEq

/-- `HostMatcher.__init__`: keeps the raw patterns and the parallel list of
regexes, each compiled with `re.IGNORECASE`. -/
structure HostMatcher where
  patterns : List String
  regexes : List Regex
deriving DecidableEq

def HostMatcher.compile (ps : List String) : HostMatcher :=
  ⟨ps, ps.map (fun p => ⟨p, true⟩)⟩

/-- `HostMatcher.__call__(address)`: builds `"host:port"` and returns true iff
any compiled regex matches it (`rex.search`, abstracted as `S`). -/
def HostMatcher.call (S : Regex → String → Bool) (m : HostMatcher)
    (host : String) (port : Nat) : Bool :=
  if (m.regexes.any fun rex => S rex (host ++ ":" ++ toString port)) then
    true
  else
    false

/-- `HostMatcher.__nonzero__`: `bool(self.patterns)`. -/
def HostMatcher.nonzero (m : HostMatcher) : Bool :=
  !m.patterns.isEmpty

/-- Python `s.split(sep)` for a one-character separator, over the character
list: splitting the empty list gives one empty piece, a separator opens a new
piece, any other character extends the current piece. -/
def splitOnChar (c : Char) : List Char → List (List Char)
  | [] => [[]]
  | x :: xs =>
    let r := splitOnChar c xs
    if x = c then [] :: r
    else
      match r with
      | h :: t => (x :: h) :: t
      | [] => [[x]]

/-- Python `s.split(sep)` for a one-character separator. -/
def pySplit (c : Char) (s : String) : List String :=
  (splitOnChar c s.data).map fun l => ⟨l⟩

/-- Python `s.split(sep, 1)` helper: the characters before the first
occurrence of `c`, and the characters after it. -/
def breakAtChar (c : Char) : List Char → Option (List Char × List Char)
  | [] => none
  | x :: xs =>
    if x = c then some ([], xs)
    else (breakAtChar c xs).map fun p => (x :: p.1, p.2)

/-- Python `path.startswith("~")`. -/
def tildePrefixed (path : String) : Bool :=
  match path.data with
  | [] => false
  | c :: _ => c = '~'

/-- Modelled from the spec: `os.path.expanduser` (Python standard library, not
part of the repository).  A path starting with the user-home shorthand `~`
(with no user name before the first `/`) has the `~` replaced by the home
directory; any other path is returned unchanged.  The `~otheruser` form is
not modelled. -/
def expanduser (home path : String) : String :=
  match path.data with
  | [] => path
  | c :: rest =>
    if c = '~' then
      if rest.takeWhile (· ≠ '/') = [] then home ++ String.mk rest else path
    else path

/-- `os.path.isabs` on POSIX: the path starts with a slash. -/
def isAbsolutePath (path : String) : Bool :=
  match path.data with
  | [] => false
  | c :: _ => c = '/'

section SSL

/-- Modelled from the spec: the protocol-method selectors exposed by the
external `OpenSSL.SSL` module (one dedicated selector per protocol version
plus the broadest selector `SSLv23_METHOD`). -/
inductive SSLMethod where
  | SSLv2_METHOD
  | SSLv3_METHOD
  | SSLv23_METHOD
  | TLSv1_METHOD
  | TLSv1_1_METHOD
  | TLSv1_2_METHOD
deriving DecidableEq

/-- Modelled from the spec: `SSL.OP_NO_SSLv2` (OpenSSL option bit). -/
def OP_NO_SSLv2 : Nat := 0x01000000

/-- Modelled from the spec: `SSL.OP_NO_SSLv3` (OpenSSL option bit). -/
def OP_NO_SSLv3 : Nat := 0x02000000

/-- `sslversion_choices` from the source. -/
def sslversion_choices : List String :=
  ["all", "secure", "SSLv2", "SSLv3", "TLSv1", "TLSv1_1", "TLSv1_2"]

/-- `getattr(SSL, "%s_METHOD" % version)`: the attribute lookup on the `SSL`
module; `none` models an `AttributeError` (no such constant). -/
def sslMethodAttr : String → Option SSLMethod
  | "SSLv2" => some .SSLv2_METHOD
  | "SSLv3" => some .SSLv3_METHOD
  | "SSLv23" => some .SSLv23_METHOD
  | "TLSv1" => some .TLSv1_METHOD
  | "TLSv1_1" => some .TLSv1_1_METHOD
  | "TLSv1_2" => some .TLSv1_2_METHOD
  | _ => none

/-- `version_to_openssl(version)` from the source: maps a symbolic SSL version
name to a method selector and an optional disabled-version bitmask, raising
`ValueError` (modelled as `Except.error`) on any unrecognized string. -/
def version_to_openssl (version : String) : Except String (SSLMethod × Option Nat) :=
  if version = "all" then
    .ok (.SSLv23_METHOD, none)
  else if version = "secure" then
    .ok (.SSLv23_METHOD, some (OP_NO_SSLv2 ||| OP_NO_SSLv3))
  else if version ∈ sslversion_choices then
    match sslMethodAttr version with
    | some m => .ok (m, none)
    | none => .error ("AttributeError: " ++ version)
  else
    .error ("Invalid SSL version: " ++ version)

end SSL

section Modes

/-- The closed set of proxy-mode variants. -/
inductive ProxyModeKind where
  | regular
  | transparent
  | socks5
  | reverse
  | upstream
deriving DecidableEq

/-- Modelled from the spec: the `.primitives` proxy-mode classes
(`RegularProxyMode`, `TransparentProxyMode`, `Socks5ProxyMode`,
`ReverseProxyMode`, `UpstreamProxyMode`) are not under `src/`.  Each variant
carries its HTTP form fields plus variant-specific data: Transparent a
destination resolver (abstract handle) and the implicitly-TLS port set,
Socks5 only the port set, Reverse/Upstream an upstream server address. -/
structure ProxyMode where
  kind : ProxyModeKind
  http_form_in : Option String
  http_form_out : Option String
  resolver : Option Nat
  ssl_ports : List Int
  upstream_server : Option String
deriving DecidableEq

/-- The mode dispatch in `ProxyConfig.__init__`: the four exact strings select
their variant, everything else (including `None`) selects Regular.  The
per-variant default HTTP forms are supplied by `defaults` (the `.primitives`
classes define them; they are not under `src/`, so they stay abstract). -/
def modeOf (defaults : ProxyModeKind → Option String × Option String)
    (resolver : Nat) (mode : Option String) (upstream_server : Option String)
    (ssl_ports : List Int) : ProxyMode :=
  if mode = some "transparent" then
    { kind := .transparent, http_form_in := (defaults .transparent).1,
      http_form_out := (defaults .transparent).2, resolver := some resolver,
      ssl_ports := ssl_ports, upstream_server := none }
  else if mode = some "socks5" then
    { kind := .socks5, http_form_in := (defaults .socks5).1,
      http_form_out := (defaults .socks5).2, resolver := none,
      ssl_ports := ssl_ports, upstream_server := none }
  else if mode = some "reverse" then
    { kind := .reverse, http_form_in := (defaults .reverse).1,
      http_form_out := (defaults .reverse).2, resolver := none,
      ssl_ports := [], upstream_server := upstream_server }
  else if mode = some "upstream" then
    { kind := .upstream, http_form_in := (defaults .upstream).1,
      http_form_out := (defaults .upstream).2, resolver := none,
      ssl_ports := [], upstream_server := upstream_server }
  else
    { kind := .regular, http_form_in := (defaults .regular).1,
      http_form_out := (defaults .regular).2, resolver := none,
      ssl_ports := [], upstream_server := none }

/-- Python `x or y` on an optional string: `y` when `x` is `None` or `""`. -/
def pyOrStr (x : Option String) (y : Option String) : Option String :=
  match x with
  | none => y
  | some s => if s = "" then y else some s

/-- The manual HTTP-form overrides in `ProxyConfig.__init__`:
`self.mode.http_form_in = http_form_in or self.mode.http_form_in` and the
same for the out-form. -/
def applyFormOverrides (m : ProxyMode) (http_form_in http_form_out : Option String) :
    ProxyMode :=
  { m with
    http_form_in := pyOrStr http_form_in m.http_form_in
    http_form_out := pyOrStr http_form_out m.http_form_out }

/-- The mode-resolution portion of `process_proxy_options`: counts the four
requested intents, checks the platform resolver inside the transparent branch,
assigns `mode`/`upstream_server` sequentially (last assignment wins), and
rejects when more than one intent was counted.  `parser.error` aborts option
processing, modelled as `Except.error`. -/
def resolveMode (resolverAvailable : Bool) (transparent_proxy socks_proxy : Bool)
    (reverse_proxy upstream_proxy : Option String) :
    Except String (Option String × Option String) := do
  let mut c := 0
  let mut mode : Option String := none
  let mut upstream_server : Option String := none
  if transparent_proxy then
    c := c + 1
    if !resolverAvailable then
      throw errTransparentPlatform
    mode := some "transparent"
  if socks_proxy then
    c := c + 1
    mode := some "socks5"
  if reverse_proxy.isSome then
    c := c + 1
    mode := some "reverse"
    upstream_server := reverse_proxy
  if upstream_proxy.isSome then
    c := c + 1
    mode := some "upstream"
    upstream_server := upstream_proxy
  if c > 1 then
    throw errMutualExclusion
  return (mode, upstream_server)

end Modes

section Auth

/-- Modelled from the spec: the `netlib.http_auth` password managers are not
under `src/`.  `PassManSingleUser` holds one fixed username/password pair;
`PassManNonAnon` passes any non-empty identity; `PassManHtpasswd` delegates
to the loaded credential file, kept abstract as its entry list. -/
inductive PassMan where
  | singleUser (username password : String)
  | nonAnon
  | htpasswd (entries : List (String × String))
deriving DecidableEq

/-- Modelled from the spec: credential verification by each backend.
SingleUser accepts exactly its stored pair; NonAnonymous accepts any
non-empty identity; Htpasswd accepts the pairs in the loaded file. -/
def PassMan.test : PassMan → String → String → Bool
  | .singleUser u p, u2, p2 => u2 = u && p2 = p
  | .nonAnon, u2, _ => u2 ≠ ""
  | .htpasswd es, u2, p2 => es.any fun e => e.1 = u2 && e.2 = p2

/-- Modelled from the spec: the authenticator wrappers from
`netlib.http_auth`.  `BasicProxyAuth(password_manager, "mitmproxy")`
challenges for credentials and verifies them against its backend;
`NullProxyAuth(None)` accepts every request. -/
inductive Authenticator where
  | basic (realm : String) (pm : PassMan)
  | null
deriving DecidableEq

/-- Modelled from the spec: whether a request carrying the given optional
credentials passes the authenticator.  The Null backend accepts every
request; the Basic backend requires credentials its backend verifies. -/
def Authenticator.accepts : Authenticator → Option (String × String) → Bool
  | .null, _ => true
  | .basic _ pm, some (u, p) => pm.test u p
  | .basic _ _, none => false

/-- The authenticator-selection portion of `process_proxy_options`.  The
htpasswd file loader (`PassManHtpasswd(path)`) performs file I/O outside the
repository and is abstracted as `loadHtpasswd`.  The final `else` branch of
the inner chain is unreachable (the outer truthiness guard holds), matching
the Python code where `password_manager` would be unbound there. -/
def selectAuthenticator (loadHtpasswd : String → Except String PassMan)
    (auth_nonanonymous : Bool) (auth_singleuser auth_htpasswd : Option String) :
    Except String Authenticator :=
  if auth_nonanonymous || optTruthy auth_singleuser || optTruthy auth_htpasswd then
    if optTruthy auth_singleuser then
      let su := auth_singleuser.getD ""
      if (pySplit ':' su).length ≠ 2 then
        .error errSingleUserFormat
      else
        .ok (.basic "mitmproxy"
          (.singleUser ((pySplit ':' su).getD 0 "") ((pySplit ':' su).getD 1 "")))
    else if auth_nonanonymous then
      .ok (.basic "mitmproxy" .nonAnon)
    else if optTruthy auth_htpasswd then
      (loadHtpasswd (auth_htpasswd.getD "")).map (.basic "mitmproxy")
    else
      .error "NameError: password_manager"
  else
    .ok .null

end Auth

section Certs

/-- Python `i.split("=", 1)`: split on the first `=` only. -/
def splitEqOnce (s : String) : List String :=
  match breakAtChar '=' s.data with
  | none => [s]
  | some (a, b) => [⟨a⟩, ⟨b⟩]

/-- One iteration of the certificate-spec loop in `process_proxy_options`:
split on the first `=`, default the domain to `"*"`, expand the user-home
shorthand in the path. -/
def parseCertSpec (home : String) (i : String) : String × String :=
  match splitEqOnce i with
  | [p] => ("*", expanduser home p)
  | d :: p :: _ => (d, expanduser home p)
  | [] => ("*", expanduser home "")

/-- The certificate-spec loop of `process_proxy_options`: each spec is parsed
and its expanded path checked for existence on disk (`os.path.exists`,
abstracted as `fileExists`); a missing path aborts with an error naming it,
otherwise the pair is appended in input order. -/
def loadCertSpecs (home : String) (fileExists : String → Bool) :
    List String → Except String (List (String × String))
  | [] => .ok []
  | i :: rest =>
    let parts := parseCertSpec home i
    if !fileExists parts.2 then
      .error ("Certificate file does not exist: " ++ parts.2)
    else
      (loadCertSpecs home fileExists rest).map (parts :: ·)

end Certs

/-- `TRANSPARENT_SSL_PORTS` from the source. -/
def TRANSPARENT_SSL_PORTS : List Int := [443, 8443]

/-- The `ssl_ports` handling in `process_proxy_options`: argparse appends
user ports to the default list, so a list differing from the default has the
leading default ports stripped off. -/
def stripSslPorts (ssl_ports : List Int) : List Int :=
  if ssl_ports ≠ TRANSPARENT_SSL_PORTS then
    ssl_ports.drop TRANSPARENT_SSL_PORTS.length
  else
    ssl_ports

section Config

/-- The fields stored by `ProxyConfig.__init__`.  The certificate store built
by `certutils.CertStore.from_store` is an external capability; the list of
`(spec, cert)` pairs it is fed is kept as the `certs` field. -/
structure ProxyConfig where
  host : String
  port : Nat
  server_version : String
  ciphers_client : Option String
  ciphers_server : Option String
  clientcerts : Option String
  no_upstream_cert : Bool
  body_size_limit : Option Int
  mode : ProxyMode
  check_ignore : HostMatcher
  check_tcp : HostMatcher
  authenticator : Option Authenticator
  cadir : String
  certs : List (String × String)
  certforward : Bool
  openssl_method_client : SSLMethod
  openssl_options_client : Option Nat
  openssl_method_server : SSLMethod
  openssl_options_server : Option Nat
  ssl_ports : List Int
deriving DecidableEq

/-- `ProxyConfig.__init__`, in the source's parameter order, prefixed by the
model parameters `home` (for `os.path.expanduser`), `defaults` (the
per-variant HTTP form defaults from `.primitives`) and `platformResolver`
(the handle returned by `platform.resolver()`).  A `ValueError` raised by
`version_to_openssl` propagates as `Except.error`. -/
def proxyConfigInit (home : String)
    (defaults : ProxyModeKind → Option String × Option String)
    (platformResolver : Nat)
    (host : String) (port : Nat) (server_version : String) (cadir : String)
    (clientcerts : Option String) (no_upstream_cert : Bool)
    (body_size_limit : Option Int) (mode : Option String)
    (upstream_server : Option String)
    (http_form_in http_form_out : Option String)
    (authenticator : Option Authenticator)
    (ignore_hosts tcp_hosts : List String)
    (ciphers_client ciphers_server : Option String)
    (certs : List (String × String)) (certforward : Bool)
    (ssl_version_client ssl_version_server : String)
    (ssl_ports : List Int) : Except String ProxyConfig := do
  let mode0 := modeOf defaults platformResolver mode upstream_server ssl_ports
  let mode1 := applyFormOverrides mode0 http_form_in http_form_out
  let (openssl_method_client, openssl_options_client) ←
    version_to_openssl ssl_version_client
  let (openssl_method_server, openssl_options_server) ←
    version_to_openssl ssl_version_server
  return {
    host := host
    port := port
    server_version := server_version
    ciphers_client := ciphers_client
    ciphers_server := ciphers_server
    clientcerts := clientcerts
    no_upstream_cert := no_upstream_cert
    body_size_limit := body_size_limit
    mode := mode1
    check_ignore := HostMatcher.compile ignore_hosts
    check_tcp := HostMatcher.compile tcp_hosts
    authenticator := authenticator
    cadir := expanduser home cadir
    certs := certs
    certforward := certforward
    openssl_method_client := openssl_method_client
    openssl_options_client := openssl_options_client
    openssl_method_server := openssl_method_server
    openssl_options_server := openssl_options_server
    ssl_ports := ssl_ports }

end Config

/-- `proxyConfigInit` applied at fixed sample values for the arguments that no
claim varies (bind host/port, server version, client certs, ciphers, the
authenticator and the host lists), leaving the claim-relevant arguments
free. -/
def sampleInit (home : String)
    (defaults : ProxyModeKind → Option String × Option String)
    (cadir : String) (body_size_limit : Option Int)
    (mode upstream_server http_form_in http_form_out : Option String)
    (ssl_version_client ssl_version_server : String)
    (ssl_ports : List Int) : Except String ProxyConfig :=
  proxyConfigInit home defaults 7 "localhost" 8080 "mitmproxy 0.11" cadir
    none false body_size_limit mode upstream_server http_form_in http_form_out
    none [] [] none none [] false ssl_version_client ssl_version_server
    ssl_ports

/-- The number of routing-mode intents present among the four options, as
counted by `process_proxy_options`. -/
def countIntents (t s : Bool) (rev up : Option String) : Nat :=
  (if t then 1 else 0) + (if s then 1 else 0) +
    (if rev.isSome then 1 else 0) + (if up.isSome then 1 else 0)

/-- The mode string the sequential assignments of `process_proxy_options`
leave behind (the later branches overwrite the earlier ones). -/
def intendedMode (t s : Bool) (rev up : Option String) : Option String :=
  if up.isSome then some "upstream"
  else if rev.isSome then some "reverse"
  else if s then some "socks5"
  else if t then some "transparent"
  else none

/-- The `ProxyMode` variant corresponding to `intendedMode`. -/
def intendedKind (t s : Bool) (rev up : Option String) : ProxyModeKind :=
  if up.isSome then .upstream
  else if rev.isSome then .reverse
  else if s then .socks5
  else if t then .transparent
  else .regular

/-- C4: for every pattern list `P` and address `(h, p)`, the matcher returns
true iff some pattern of `P` — each compiled with the case-insensitive flag —
matches the string `"h:p"` under the (abstract) regex search semantics `S`;
the empty-pattern matcher returns false for every address and is itself falsy
(`__nonzero__`). -/
theorem hostMatcher_any_iff_empty_falsy (S : Regex → String → Bool)
    (P : List String) (h : String) (p : Nat) :
    ((HostMatcher.compile P).call S h p = true ↔
      ∃ pat ∈ P, S ⟨pat, true⟩ (h ++ ":" ++ toString p) = true) ∧
    (HostMatcher.compile []).call S h p = false ∧
    (HostMatcher.compile []).nonzero = false := by
  refine ⟨?_, by simp [HostMatcher.call, HostMatcher.compile], rfl⟩
  simp [HostMatcher.call, HostMatcher.compile, List.any_map, List.any_eq_true,
    Function.comp]

/-- C10: the mode dispatch in `ProxyConfig.__init__` sends every mode value
other than the four exact strings `"transparent"`, `"socks5"`, `"reverse"`,
`"upstream"` — `none` included — to the Regular variant, and raises no
error (`modeOf` is total). -/
theorem modeOf_unrecognized_is_regular
    (defaults : ProxyModeKind → Option String × Option String)
    (resolver : Nat) (u : Option String) (ports : List Int) (m : Option String)
    (h1 : m ≠ some "transparent") (h2 : m ≠ some "socks5")
    (h3 : m ≠ some "reverse") (h4 : m ≠ some "upstream") :
    (modeOf defaults resolver m u ports).kind = ProxyModeKind.regular := by
  simp [modeOf, h1, h2, h3, h4]

theorem modeOf_unrecognized_is_regular_witness :
    (modeOf (fun _ => (none, none)) 0 (some "bogus") none []).kind =
        ProxyModeKind.regular ∧
    (modeOf (fun _ => (none, none)) 0 none none []).kind = ProxyModeKind.regular :=
  ⟨modeOf_unrecognized_is_regular _ 0 none [] (some "bogus")
      (by decide) (by decide) (by decide) (by decide),
   modeOf_unrecognized_is_regular _ 0 none [] none
      (by decide) (by decide) (by decide) (by decide)⟩

/-- C9: `process_proxy_options` strips the two appended default ports from any
`ssl_ports` list that differs from the default `[443, 8443]` (so an
argparse-built list `default ++ user` resolves to exactly the user-supplied
ports), keeps the default list unchanged when it is equal to the default, and
the resulting list is stored verbatim as the config's `ssl_ports`. -/
theorem sslPorts_strip_props (l u : List Int) :
    (l ≠ TRANSPARENT_SSL_PORTS → stripSslPorts l = l.drop 2) ∧
    stripSslPorts TRANSPARENT_SSL_PORTS = TRANSPARENT_SSL_PORTS ∧
    stripSslPorts (TRANSPARENT_SSL_PORTS ++ u) =
      (if u.isEmpty then TRANSPARENT_SSL_PORTS else u) ∧
    (sampleInit "/home/user" (fun _ => (none, none)) "~" none none none none none
        "secure" "secure" (stripSslPorts (TRANSPARENT_SSL_PORTS ++ u))).map
      ProxyConfig.ssl_ports = .ok (stripSslPorts (TRANSPARENT_SSL_PORTS ++ u)) := by
  refine ⟨fun hl => by unfold stripSslPorts; rw [if_pos hl]; rfl,
    by simp [stripSslPorts], ?_, rfl⟩
  cases u with
  | nil => simp [stripSslPorts]
  | cons a u => simp [stripSslPorts, TRANSPARENT_SSL_PORTS]

theorem sslPorts_strip_props_witness :
    stripSslPorts [443, 8443, 9443] = [9443] :=
  (sslPorts_strip_props [443, 8443, 9443] []).1 (by decide)

/-- C6: each HTTP-form override replaces the mode's field exactly when it is
non-empty/non-null (Python `or`); otherwise the mode's default is retained;
the in-form does not depend on the out-override and vice versa; and the
constructed config's mode is the dispatched mode with both overrides
applied. -/
theorem httpFormOverride_props (m : ProxyMode) (fi fo fi2 fo2 : Option String)
    (df : ProxyModeKind → Option String × Option String) (mo up : Option String) :
    ((applyFormOverrides m fi fo).http_form_in =
      if optTruthy fi then fi else m.http_form_in) ∧
    ((applyFormOverrides m fi fo).http_form_out =
      if optTruthy fo then fo else m.http_form_out) ∧
    (applyFormOverrides m fi fo).http_form_in =
      (applyFormOverrides m fi fo2).http_form_in ∧
    (applyFormOverrides m fi fo).http_form_out =
      (applyFormOverrides m fi2 fo).http_form_out ∧
    (sampleInit "/home/user" df "~" none mo up fi fo "secure" "secure" []).map
      ProxyConfig.mode = .ok (applyFormOverrides (modeOf df 7 mo up []) fi fo) := by
  have key : ∀ x y : Option String, pyOrStr x y = if optTruthy x then x else y := by
    intro x y
    cases x with
    | none => simp [pyOrStr, optTruthy]
    | some s => by_cases hs : s = "" <;> simp [pyOrStr, optTruthy, hs]
  exact ⟨by simp [applyFormOverrides, key], by simp [applyFormOverrides, key],
    by simp [applyFormOverrides], by simp [applyFormOverrides], rfl⟩

/-- C8 (counterexample): `ProxyConfig` construction succeeds with
`body_size_limit = 0` and stores the zero — contradicting the claim that no
`ProxyConfig` is ever constructed with a zero or negative limit. -/
theorem bodySizeLimit_zero_constructible :
    (sampleInit "/home/user" (fun _ => (none, none)) "~" (some 0) none none none
      none "secure" "secure" []).map ProxyConfig.body_size_limit =
      .ok (some 0) := rfl

/-- C8 (amended): `ProxyConfig.__init__` performs no validation of
`body_size_limit`; the field stores exactly the supplied value — `none`
meaning unlimited, zero and negative values included. -/
theorem bodySizeLimit_stored_unvalidated (home cadir : String)
    (df : ProxyModeKind → Option String × Option String) (bsl : Option Int)
    (mo up fi fo : Option String) (ports : List Int) :
    (sampleInit home df cadir bsl mo up fi fo "secure" "secure" ports).map
      ProxyConfig.body_size_limit = .ok bsl := rfl

/-- C7 (counterexample): with a relative `cadir` input the stored `cadir`
field is the unchanged relative path, not an absolute path — `expanduser`
expands the user-home shorthand only and never makes a path absolute. -/
theorem cadir_relative_stays_relative :
    (sampleInit "/home/user" (fun _ => (none, none)) "relative/dir" none none
        none none none "secure" "secure" []).map ProxyConfig.cadir =
      .ok "relative/dir" ∧
    isAbsolutePath "relative/dir" = false := ⟨rfl, by decide⟩

/-- C7 (amended): the `cadir` field is the input with the user-home shorthand
expanded (`os.path.expanduser`), and nothing more: an input that does not
start with `~` is stored verbatim (so a relative input stays relative), while
a `~/`-prefixed input — such as the default `~/.mitmproxy` — becomes the home
directory plus the remainder. -/
theorem cadir_is_expanduser_only (home cadirArg : String)
    (df : ProxyModeKind → Option String × Option String) (bsl : Option Int)
    (mo up fi fo : Option String) (ports : List Int) :
    ((sampleInit home df cadirArg bsl mo up fi fo "secure" "secure" ports).map
      ProxyConfig.cadir = .ok (expanduser home cadirArg)) ∧
    (tildePrefixed cadirArg = false → expanduser home cadirArg = cadirArg) ∧
    expanduser home "~/.mitmproxy" = home ++ "/.mitmproxy" := by
  refine ⟨rfl, fun hno => ?_, rfl⟩
  unfold expanduser
  unfold tildePrefixed at hno
  cases hd : cadirArg.data with
  | nil => rfl
  | cons c rest =>
    rw [hd] at hno
    have hc : c ≠ '~' := by simpa using hno
    simp [hc]

theorem cadir_is_expanduser_only_witness :
    (sampleInit "/home/user" (fun _ => (none, none)) "relative/sub" none none
        none none none "secure" "secure" []).map ProxyConfig.cadir =
      .ok (expanduser "/home/user" "relative/sub") ∧
    expanduser "/home/user" "relative/sub" = "relative/sub" :=
  ⟨(cadir_is_expanduser_only "/home/user" "relative/sub" (fun _ => (none, none))
      none none none none none []).1,
   (cadir_is_expanduser_only "/home/user" "relative/sub" (fun _ => (none, none))
      none none none none none []).2.1 rfl⟩

/-- C5: each raw certificate spec is split on the first `=`
(`"example.com=/path/to/cert.pem"` gives that domain/path pair, a spec with
no `=` gets domain `"*"`), the path has the user-home shorthand expanded, a
resolved path missing on disk fails with an error naming that exact path, and
when every path exists the loader returns the parsed pairs in input order —
duplicates included, unmodified. -/
theorem certSpecLoader_props (home : String) (fileExists : String → Bool)
    (specs : List String) :
    ((∀ s ∈ specs, fileExists (parseCertSpec home s).2 = true) →
      loadCertSpecs home fileExists specs = .ok (specs.map (parseCertSpec home))) ∧
    parseCertSpec home "example.com=/path/to/cert.pem" =
      ("example.com", "/path/to/cert.pem") ∧
    parseCertSpec home "/path/to/cert.pem" = ("*", "/path/to/cert.pem") ∧
    (fileExists "/path/to/cert.pem" = false →
      loadCertSpecs home fileExists ["example.com=/path/to/cert.pem"] =
        .error "Certificate file does not exist: /path/to/cert.pem") := by
  have hp : parseCertSpec home "example.com=/path/to/cert.pem" =
      ("example.com", "/path/to/cert.pem") := rfl
  refine ⟨?_, rfl, rfl, fun hno => by simp [loadCertSpecs, hp, hno]⟩
  intro hall
  induction specs with
  | nil => rfl
  | cons i rest ih =>
    have hi := hall i (List.mem_cons_self i rest)
    have hrest := ih fun s hs => hall s (List.mem_cons_of_mem i hs)
    simp [loadCertSpecs, hi, hrest, Except.map]

theorem certSpecLoader_props_witness :
    loadCertSpecs "/home/user" (fun _ => true)
        ["example.com=/a.pem", "example.com=/b.pem", "~/c.pem"] =
      .ok [("example.com", "/a.pem"), ("example.com", "/b.pem"),
        ("*", "/home/user/c.pem")] ∧
    loadCertSpecs "/home/user" (fun _ => false)
        ["example.com=/path/to/cert.pem"] =
      .error "Certificate file does not exist: /path/to/cert.pem" := by
  exact ⟨(certSpecLoader_props "/home/user" (fun _ => true)
      ["example.com=/a.pem", "example.com=/b.pem", "~/c.pem"]).1 (fun s _ => rfl),
    (certSpecLoader_props "/home/user" (fun _ => false) []).2.2.2 rfl⟩

/-- C3 (counterexample): the empty singleuser string splits on `:` into one
part, not two, yet selection returns the Null authenticator instead of the
format error — the empty string is falsy, so the whole authentication block
is skipped. -/
theorem singleuser_empty_string_no_error :
    (pySplit ':' "").length ≠ 2 ∧
    selectAuthenticator (fun _ => .error "") false (some "") none =
      .ok Authenticator.null := ⟨by decide, rfl⟩

/-- C3 (amended): `singleuser="alice:wonderland"` yields the SingleUser
backend accepting exactly the identity alice with password wonderland; a
*non-empty* singleuser string whose split on `:` does not yield exactly two
parts fails with the format error (the empty string is falsy and is treated
as if the flag were absent); with none of the three auth flags the Null
authenticator is returned, and it accepts every request. -/
theorem authSelector_props (L : String → Except String PassMan) (s u p : String)
    (creds : Option (String × String)) :
    selectAuthenticator L false (some "alice:wonderland") none =
      .ok (.basic "mitmproxy" (.singleUser "alice" "wonderland")) ∧
    ((Authenticator.basic "mitmproxy" (.singleUser "alice" "wonderland")).accepts
        (some (u, p)) = true ↔ u = "alice" ∧ p = "wonderland") ∧
    (s ≠ "" → (pySplit ':' s).length ≠ 2 →
      selectAuthenticator L false (some s) none = .error errSingleUserFormat) ∧
    selectAuthenticator L false none none = .ok .null ∧
    Authenticator.null.accepts creds = true := by
  refine ⟨rfl, ?_, ?_, rfl, rfl⟩
  · simp [Authenticator.accepts, PassMan.test]
  · intro hs hlen
    simp [selectAuthenticator, optTruthy, hs, hlen]

theorem authSelector_props_witness :
    selectAuthenticator (fun _ => .error "") false (some "alice") none =
      .error errSingleUserFormat :=
  (authSelector_props (fun _ => .error "") "alice" "" "" none).2.2.1
    (by decide) (by decide)

/-- C2: `version_to_openssl` is total over its input: `"all"` gives the
broadest selector with no disabled bitmask, `"secure"` gives the broadest
selector with exactly SSLv2 and SSLv3 disabled, each of the five named
versions gives its dedicated selector with no bitmask, and every other string
fails with an error naming it; the mapping is applied to the client and the
server label independently, each side's result determined by its own
label. -/
theorem versionToOpenssl_props (v : String) (mc ms : SSLMethod)
    (oc os2 : Option Nat) (vc vs : String) :
    version_to_openssl "all" = .ok (.SSLv23_METHOD, none) ∧
    version_to_openssl "secure" =
      .ok (.SSLv23_METHOD, some (OP_NO_SSLv2 ||| OP_NO_SSLv3)) ∧
    version_to_openssl "SSLv2" = .ok (.SSLv2_METHOD, none) ∧
    version_to_openssl "SSLv3" = .ok (.SSLv3_METHOD, none) ∧
    version_to_openssl "TLSv1" = .ok (.TLSv1_METHOD, none) ∧
    version_to_openssl "TLSv1_1" = .ok (.TLSv1_1_METHOD, none) ∧
    version_to_openssl "TLSv1_2" = .ok (.TLSv1_2_METHOD, none) ∧
    (v ∉ sslversion_choices →
      version_to_openssl v = .error ("Invalid SSL version: " ++ v)) ∧
    (version_to_openssl vc = .ok (mc, oc) → version_to_openssl vs = .ok (ms, os2) →
      (sampleInit "/home/user" (fun _ => (none, none)) "~" none none none none
          none vc vs []).map
        (fun c => ((c.openssl_method_client, c.openssl_options_client),
          (c.openssl_method_server, c.openssl_options_server))) =
        .ok ((mc, oc), (ms, os2))) := by
  refine ⟨rfl, rfl, rfl, rfl, rfl, rfl, rfl, ?_, ?_⟩
  · intro hv
    have h1 : ¬ v = "all" := fun e => hv (by rw [e]; decide)
    have h2 : ¬ v = "secure" := fun e => hv (by rw [e]; decide)
    simp [version_to_openssl, h1, h2, hv]
  · intro hc hs
    simp [sampleInit, proxyConfigInit, hc, hs, Except.map, Except.bind]
    rfl

theorem versionToOpenssl_props_witness :
    version_to_openssl "bogus" = .error "Invalid SSL version: bogus" ∧
    (sampleInit "/home/user" (fun _ => (none, none)) "~" none none none none
        none "secure" "all" []).map
      (fun c => ((c.openssl_method_client, c.openssl_options_client),
        (c.openssl_method_server, c.openssl_options_server))) =
      .ok ((SSLMethod.SSLv23_METHOD, some (OP_NO_SSLv2 ||| OP_NO_SSLv3)),
        (SSLMethod.SSLv23_METHOD, none)) :=
  ⟨(versionToOpenssl_props "bogus" .SSLv23_METHOD .SSLv23_METHOD none none
      "" "").2.2.2.2.2.2.2.1 (by decide),
   (versionToOpenssl_props "" .SSLv23_METHOD .SSLv23_METHOD
      (some (OP_NO_SSLv2 ||| OP_NO_SSLv3)) none "secure" "all").2.2.2.2.2.2.2.2
      rfl rfl⟩

/-- C1 (counterexample): with the platform resolver unavailable and both
transparent and SOCKS5 requested, mode resolution fails with the
platform-support error, not with the mutual-exclusion error — the platform
check runs inside the transparent branch, before the count check. -/
theorem platform_error_preempts_mutual_exclusion :
    resolveMode false true true none none = .error errTransparentPlatform ∧
    errTransparentPlatform ≠ errMutualExclusion := ⟨rfl, by decide⟩

/-- C1 (amended): if transparent is requested and no platform resolver is
available, resolution fails with the platform error regardless of the other
intents; otherwise more than one requested intent fails with the
mutual-exclusion error; otherwise the resolved mode string is the requested
one (`none` when no intent is requested), and dispatching it through
`ProxyConfig.__init__` yields the corresponding `ProxyMode` variant (Regular
for `none`). -/
theorem modeResolution_cases (ra t s : Bool) (rev up : Option String)
    (df : ProxyModeKind → Option String × Option String) (resolver : Nat)
    (ports : List Int) :
    resolveMode ra t s rev up =
      (if t && !ra then .error errTransparentPlatform
       else if countIntents t s rev up > 1 then .error errMutualExclusion
       else .ok (intendedMode t s rev up, if up.isSome then up else rev)) ∧
    (modeOf df resolver (intendedMode t s rev up)
        (if up.isSome then up else rev) ports).kind = intendedKind t s rev up := by
  cases ra <;> cases t <;> cases s <;> cases rev <;> cases up <;>
    exact ⟨rfl, rfl⟩
